import Mathlib

/-!
Verification development for the Access-Point Lifecycle Manager of the
leviathan repository (source: src/worker/lib/workers/nm.ts).

The TypeScript class NetworkManager is embedded shallowly:
* D-Bus object paths are modelled by the inductive ObjPath (paths are opaque
  strings in the source; the remote service mints fresh ones, modelled by a
  counter).
* The remote NetworkManager service's observable state, together with the
  methods invoked on it, is the Bus structure: the profiles known to
  Settings (settingsNodes, read via the proxy object's nodes), the active
  connections (activeNodes), a trace of the bus methods invoked in order,
  and failure-injection flags standing for the remote service rejecting a
  given method call (remote calls are fallible in the source: any awaited
  bus call may throw).
* The Teardown class holds an arbitrary JS Function; it is embedded
  generically, an action being a state transformer returning the state it
  produced plus the error it threw, if any.
* async methods that may throw become functions returning the updated
  state together with an Except/Option error; a thrown error aborts the
  rest of the method body exactly as a rejected await does.
-/

namespace Leviathan

/-- Opaque D-Bus object path references. The source types them all as
strings; here the kind and a freshness index are made explicit so that
distinct mints are provably distinct. -/
inductive ObjPath where
  | settingsConn (n : Nat)
  | activeConn (n : Nat)
  | device (iface : String)
  deriving DecidableEq, Repr

/-- NetworkManager.wiredTemplate's result (nm.ts lines 58-68): plain
key/value settings object. The random id from generateId is an explicit
argument (Math.random is modelled by parameter passing). -/
structure WiredTemplate where
  id : String
  type : String
  autoconnect : Bool
  ipv4method : String
  ipv6method : String
  deriving DecidableEq, Repr

/-- The 802-11-wireless-security section of a wireless settings object
(nm.ts lines 81-84). psk is an Option because the TS annotation
psk: string is not enforced at runtime; an omitted argument arrives as
undefined (none) and the source wraps it unchecked. -/
structure WirelessSecurity where
  keyMgmt : String
  psk : Option String
  deriving DecidableEq, Repr

/-- NetworkManager.wirelessTemplate's result (nm.ts lines 70-88). JS
settings objects are key/value maps whose sections may in principle be
absent, so the security section is an Option; the dbus.Variant type tags
(s, b, ay) are constants in the source and are dropped, keeping the
payloads. The ssid is the raw byte array produced by
stringToArrayOfBytes. -/
structure WirelessTemplate where
  id : String
  type : String
  autoconnect : Bool
  mode : String
  ssid : List Nat
  security : Option WirelessSecurity
  ipv4method : String
  ipv6method : String
  deriving DecidableEq, Repr

/-- A settings object passed to AddConnectionUnsaved. -/
inductive Descriptor where
  | wired (t : WiredTemplate)
  | wireless (t : WirelessTemplate)
  deriving DecidableEq, Repr

/-- The bus methods the manager invokes, as recorded in the call trace.
enumSettings and enumActive stand for reading the nodes of the Settings
and ActiveConnection proxy objects (nm.ts lines 100-103 and 139-142). -/
inductive BusCall where
  | addConnectionUnsaved (d : Descriptor)
  | enumSettings
  | delete (ref : ObjPath)
  | getDeviceByIpIface (iface : String)
  | activate (conn dev : ObjPath)
  | enumActive
  | deactivate (ref : ObjPath)
  | disconnect
  deriving DecidableEq, Repr

/-- Errors: thrown msg models throw new Error(msg) in the manager;
remote c models the awaited bus call c rejecting; typeError models a
TypeError raised by the Node runtime itself, such as the
ERR_INVALID_ARG_TYPE check in the events module. -/
inductive Err where
  | thrown (msg : String)
  | remote (c : BusCall)
  | typeError (msg : String)
  deriving DecidableEq, Repr

/-- Observable state of the bus client plus the remote service, with
failure-injection flags describing which remote methods the service
rejects. -/
structure Bus where
  settingsNodes : List ObjPath
  activeNodes : List ObjPath
  fresh : Nat
  trace : List BusCall
  connected : Bool
  failAdd : Bool
  failGetDevice : Bool
  failActivate : Bool
  failDelete : Bool
  failDeactivate : Bool
  deriving DecidableEq, Repr

/-- A freshly connected bus with no profiles and a failure-free service. -/
def Bus.init : Bus :=
  ⟨[], [], 0, [], true, false, false, false, false, false⟩

/-- Record one bus method invocation. -/
def Bus.log (b : Bus) (c : BusCall) : Bus :=
  { b with trace := b.trace ++ [c] }

/-- this.bus.disconnect() (nm.ts line 228). -/
def Bus.disconnect (b : Bus) : Bus :=
  { b.log BusCall.disconnect with connected := false }

/-- The Teardown class (nm.ts lines 16-27), generic in the state the held
Function acts on and the errors it may throw. fn returns the state after
running together with the thrown error, if any. -/
structure Teardown (σ ε : Type) where
  fn : σ → σ × Option ε

/-- The initial and reset action the empty arrow function: does nothing, throws nothing. -/
def Teardown.noop {σ ε : Type} : Teardown σ ε :=
  ⟨fun s => (s, none)⟩

/-- register(fn) (nm.ts lines 19-21): replaces the held action without
running the previous one. -/
def Teardown.register {σ ε : Type} (_t : Teardown σ ε) (f : σ → σ × Option ε) :
    Teardown σ ε :=
  ⟨f⟩

/-- run() (nm.ts lines 23-26): await this.fn(); this.fn = the empty arrow function.
If the awaited action throws, the method propagates the error before the
reassignment executes, so the held action is left unchanged; only on
normal completion is it reset to the no-op. -/
def Teardown.run {σ ε : Type} (t : Teardown σ ε) (s : σ) :
    Teardown σ ε × σ × Option ε :=
  match t.fn s with
  | (s1, none) => (Teardown.noop, s1, none)
  | (s1, some e) => (t, s1, some e)

namespace NetworkManager

/-- stringToArrayOfBytes (nm.ts lines 44-50): the JS loop pushes
str.charCodeAt(i) for each index, i.e. the code unit of every character
in order. -/
def stringToArrayOfBytes (str : String) : List Nat :=
  str.data.map Char.toNat

/-- wiredTemplate(method) (nm.ts lines 58-68), with generateId's random
output passed explicitly as id. -/
def wiredTemplate (id : String) (method : String) : WiredTemplate :=
  { id := id
    type := "802-3-ethernet"
    autoconnect := false
    ipv4method := method
    ipv6method := "ignore" }

/-- wirelessTemplate(method, ssid, psk) (nm.ts lines 70-88), with
generateId's output passed explicitly as id. The 802-11-wireless-security
section is included unconditionally by the source (lines 81-84), whatever
psk holds. -/
def wirelessTemplate (id : String) (method : String) (ssid : String)
    (psk : Option String) : WirelessTemplate :=
  { id := id
    type := "802-11-wireless"
    autoconnect := false
    mode := "ap"
    ssid := stringToArrayOfBytes ssid
    security := some { keyMgmt := "wpa-psk", psk := psk }
    ipv4method := method
    ipv6method := "ignore" }

/-- addConnection (nm.ts lines 90-97): AddConnectionUnsaved on the
Settings interface; on success the service registers a fresh profile and
returns its path. -/
def addConnection (b : Bus) (connection : Descriptor) : Bus × Except Err ObjPath :=
  let b1 := b.log (BusCall.addConnectionUnsaved connection)
  if b1.failAdd then
    (b1, Except.error (Err.remote (BusCall.addConnectionUnsaved connection)))
  else
    ({ b1 with
        settingsNodes := b1.settingsNodes ++ [ObjPath.settingsConn b1.fresh]
        fresh := b1.fresh + 1 },
      Except.ok (ObjPath.settingsConn b1.fresh))

/-- removeConnection (nm.ts lines 99-113): enumerate the Settings nodes;
only if the reference is among them, call Delete on it. -/
def removeConnection (b : Bus) (reference : ObjPath) : Bus × Option Err :=
  let b1 := b.log BusCall.enumSettings
  if b1.settingsNodes.contains reference then
    let b2 := b1.log (BusCall.delete reference)
    if b2.failDelete then (b2, some (Err.remote (BusCall.delete reference)))
    else ({ b2 with settingsNodes := b2.settingsNodes.erase reference }, none)
  else (b1, none)

/-- getDevice (nm.ts lines 115-122): GetDeviceByIpIface. -/
def getDevice (b : Bus) (iface : String) : Bus × Except Err ObjPath :=
  let b1 := b.log (BusCall.getDeviceByIpIface iface)
  if b1.failGetDevice then
    (b1, Except.error (Err.remote (BusCall.getDeviceByIpIface iface)))
  else (b1, Except.ok (ObjPath.device iface))

/-- activateConnection (nm.ts lines 124-134): ActivateConnection; on
success the service creates a fresh active connection and returns its
path. -/
def activateConnection (b : Bus) (reference : ObjPath) (dev : ObjPath) :
    Bus × Except Err ObjPath :=
  let b1 := b.log (BusCall.activate reference dev)
  if b1.failActivate then
    (b1, Except.error (Err.remote (BusCall.activate reference dev)))
  else
    ({ b1 with
        activeNodes := b1.activeNodes ++ [ObjPath.activeConn b1.fresh]
        fresh := b1.fresh + 1 },
      Except.ok (ObjPath.activeConn b1.fresh))

/-- deactivateConnection (nm.ts lines 136-152): enumerate the
ActiveConnection nodes; only if the reference is among them, call
DeactivateConnection. -/
def deactivateConnection (b : Bus) (reference : ObjPath) : Bus × Option Err :=
  let b1 := b.log BusCall.enumActive
  if b1.activeNodes.contains reference then
    let b2 := b1.log (BusCall.deactivate reference)
    if b2.failDeactivate then (b2, some (Err.remote (BusCall.deactivate reference)))
    else ({ b2 with activeNodes := b2.activeNodes.erase reference }, none)
  else (b1, none)

/-- The closure registered as a teardown action by both add*Connection
methods (nm.ts lines 175-178 and 215-218): deactivate the active
connection, then remove the profile; a throw in the first await aborts
the second. -/
def reversal (activeConn conn : ObjPath) : Bus → Bus × Option Err := fun b =>
  match deactivateConnection b activeConn with
  | (b1, some e) => (b1, some e)
  | (b1, none) => removeConnection b1 conn

end NetworkManager

/-- Static per-process network options (Leviathan.Options at nm.ts line
31): optional interface name per mode, as used at lines 170, 180, 208 and
220. -/
structure NetOptions where
  wired : Option String
  wireless : Option String
  deriving DecidableEq, Repr

/-- The teardowns field of NetworkManager (nm.ts lines 33-36). -/
structure Teardowns where
  wired : Teardown Bus Err
  wireless : Teardown Bus Err

/-- The mutable state of a NetworkManager instance: its options, the bus,
both teardown registries, and whether the raw method this.teardown is
currently installed as the SIGINT / SIGTERM listener. The constructor
passes the method to process.on without binding it to the instance
(nm.ts lines 40-41); what that means at signal-delivery time is modelled
by deliverSignal below. -/
structure NMState where
  options : Option NetOptions
  bus : Bus
  teardowns : Teardowns
  sigint : Bool
  sigterm : Bool

namespace NetworkManager

/-- The constructor (nm.ts lines 30-42): fresh bus, both registries
holding the no-op, and the raw (unbound) teardown method installed as
the listener for both signals; the flags record that installation only.
Signal delivery to this listener is deliverSignal, which accounts for
the listener being unbound. -/
def mkState (options : Option NetOptions) : NMState :=
  ⟨options, Bus.init, ⟨Teardown.noop, Teardown.noop⟩, true, true⟩

/-- Dynamic parameters of addWiredConnection (nm.ts line 154). -/
structure WiredCallOptions where
  nat : Option Bool
  deriving DecidableEq, Repr

/-- Dynamic parameters of addWirelessConnection (nm.ts lines 183-187). -/
structure WirelessCallOptions where
  ssid : Option String
  psk : Option String
  nat : Option Bool
  deriving DecidableEq, Repr

/-- addWiredConnection (nm.ts lines 154-181), with generateId's output
passed explicitly as id. Statement order follows the source: the two
validations, this.teardowns.wired.run(), addConnection, getDevice,
activateConnection, register, return the interface name. -/
def addWiredConnection (st : NMState) (options : WiredCallOptions) (id : String) :
    NMState × Except Err String :=
  match st.options with
  | none => (st, Except.error (Err.thrown "Wired AP unconfigured"))
  | some o =>
    match o.wired with
    | none => (st, Except.error (Err.thrown "Wired AP unconfigured"))
    | some iface =>
      match options.nat with
      | none => (st, Except.error (Err.thrown "Wired configuration incomplete"))
      | some nat =>
        match st.teardowns.wired.run st.bus with
        | (td1, b1, some e) =>
          ({ st with teardowns := { st.teardowns with wired := td1 }, bus := b1 },
            Except.error e)
        | (td1, b1, none) =>
          let st1 :=
            { st with teardowns := { st.teardowns with wired := td1 }, bus := b1 }
          match addConnection st1.bus
              (Descriptor.wired (wiredTemplate id (if nat then "shared" else "link-local"))) with
          | (b2, Except.error e) => ({ st1 with bus := b2 }, Except.error e)
          | (b2, Except.ok conn) =>
            match getDevice b2 iface with
            | (b3, Except.error e) => ({ st1 with bus := b3 }, Except.error e)
            | (b3, Except.ok dev) =>
              match activateConnection b3 conn dev with
              | (b4, Except.error e) => ({ st1 with bus := b4 }, Except.error e)
              | (b4, Except.ok activeConn) =>
                ({ st1 with
                    bus := b4
                    teardowns := { st1.teardowns with
                      wired := st1.teardowns.wired.register (reversal activeConn conn) } },
                  Except.ok iface)

/-- addWirelessConnection (nm.ts lines 183-221), with generateId's output
passed explicitly as id. Statement order follows the source. -/
def addWirelessConnection (st : NMState) (options : WirelessCallOptions) (id : String) :
    NMState × Except Err String :=
  match st.options with
  | none => (st, Except.error (Err.thrown "Wireless AP unconfigured"))
  | some o =>
    match o.wireless with
    | none => (st, Except.error (Err.thrown "Wireless AP unconfigured"))
    | some iface =>
      match options.ssid, options.psk, options.nat with
      | some ssid, some psk, some nat =>
        (match st.teardowns.wireless.run st.bus with
        | (td1, b1, some e) =>
          ({ st with teardowns := { st.teardowns with wireless := td1 }, bus := b1 },
            Except.error e)
        | (td1, b1, none) =>
          let st1 :=
            { st with teardowns := { st.teardowns with wireless := td1 }, bus := b1 }
          match addConnection st1.bus
              (Descriptor.wireless
                (wirelessTemplate id (if nat then "shared" else "link-local") ssid (some psk))) with
          | (b2, Except.error e) => ({ st1 with bus := b2 }, Except.error e)
          | (b2, Except.ok conn) =>
            match getDevice b2 iface with
            | (b3, Except.error e) => ({ st1 with bus := b3 }, Except.error e)
            | (b3, Except.ok dev) =>
              match activateConnection b3 conn dev with
              | (b4, Except.error e) => ({ st1 with bus := b4 }, Except.error e)
              | (b4, Except.ok activeConn) =>
                ({ st1 with
                    bus := b4
                    teardowns := { st1.teardowns with
                      wireless := st1.teardowns.wireless.register (reversal activeConn conn) } },
                  Except.ok iface))
      | _, _, _ => (st, Except.error (Err.thrown "Wireless configuration incomplete"))

/-- The two termination signals the constructor installs handlers for. -/
inductive Signal where
  | SIGINT
  | SIGTERM
  deriving DecidableEq, Repr

/-- os.constants.signals values on Linux: SIGINT = 2, SIGTERM = 15. -/
def Signal.num : Signal → Nat
  | Signal.SIGINT => 2
  | Signal.SIGTERM => 15

/-- teardown (nm.ts lines 223-236) as invoked with the manager instance
as receiver, i.e. a direct call such as manager.teardown(): deregister
both signal listeners, run the wired registry, run the wireless
registry, disconnect the bus, and, when invoked with a signal argument,
exit with 128 + signal number. A throw from an awaited run() propagates
and aborts the remaining statements (there is no try/catch in the
source), which the model renders by returning the error with no exit
code. Result: the state reached, the propagated error if any, and the
process exit code if any. Delivery of an OS signal to the installed
listener does not reach this body with the manager as receiver; see
deliverSignal. -/
def teardown (st : NMState) (signal : Option Signal) :
    NMState × Option Err × Option Nat :=
  let st0 := { st with sigint := false, sigterm := false }
  match st0.teardowns.wired.run st0.bus with
  | (tw, b1, some e) =>
    ({ st0 with teardowns := { st0.teardowns with wired := tw }, bus := b1 },
      some e, none)
  | (tw, b1, none) =>
    let st1 := { st0 with teardowns := { st0.teardowns with wired := tw }, bus := b1 }
    match st1.teardowns.wireless.run st1.bus with
    | (tl, b2, some e) =>
      ({ st1 with teardowns := { st1.teardowns with wireless := tl }, bus := b2 },
        some e, none)
    | (tl, b2, none) =>
      ({ st1 with
          teardowns := { st1.teardowns with wireless := tl }
          bus := Bus.disconnect b2 },
        none,
        match signal with
        | some s => some (128 + s.num)
        | none => none)

/-- A JS value standing in a listener-argument position: a function, or
undefined (the value of an absent property). -/
inductive JsListener where
  | jsFunction
  | jsUndefined
  deriving DecidableEq, Repr

/-- The receiver (the value of this) a function runs with in JS. A
method passed around as a plain value carries no receiver; whoever calls
it decides. Node's EventEmitter invokes every listener with this set to
the emitter, so a listener registered on process runs with the process
object as receiver; only an explicit method call like manager.teardown()
makes the manager instance the receiver. -/
inductive Receiver where
  | processObject
  | managerInstance
  deriving DecidableEq, Repr

/-- The value of the property access this.teardown inside the handler
body, by receiver: the manager instance carries the method (a function);
the process object has no teardown property, so on it the access yields
undefined. -/
def teardownProperty : Receiver → JsListener
  | Receiver.processObject => JsListener.jsUndefined
  | Receiver.managerInstance => JsListener.jsFunction

/-- Node's events module validates removeListener's listener argument:
a value that is not a function throws TypeError ERR_INVALID_ARG_TYPE
before anything is removed; a function is deregistered. Result: whether
the handler is still installed, and the thrown error if any. -/
def removeListenerCheck (installed : Bool) (listener : JsListener) : Bool × Option Err :=
  match listener with
  | JsListener.jsFunction => (false, none)
  | JsListener.jsUndefined =>
    (installed, some (Err.typeError "ERR_INVALID_ARG_TYPE"))

/-- Delivery of a handled OS signal to the listener the constructor
registers. nm.ts lines 40-41 pass the raw method this.teardown to
process.on, so the stored listener is unbound, and EventEmitter invokes
it with this = process: the receiver inside the body is the process
object. The first statement of the body (line 224) is
process.removeListener with this.teardown as the listener argument;
under the process-object receiver that argument is undefined
(teardownProperty) and removeListener throws (removeListenerCheck), so
the async handler rejects at its first statement: nothing is
deregistered, neither registry runs, the bus stays connected and no
process.exit is reached. Only if the lookup produced a function — the
receiver carrying the manager's properties, as an instance-bound
handler would — does the body proceed, and then it is exactly the
modelled teardown. -/
def deliverSignal (st : NMState) (sig : Signal) : NMState × Option Err × Option Nat :=
  match removeListenerCheck st.sigint (teardownProperty Receiver.processObject) with
  | (stillInstalled, some e) => ({ st with sigint := stillInstalled }, some e, none)
  | (_, none) => teardown st (some sig)

end NetworkManager

/-! Claim theorems. -/

/-- C9: the wireless descriptor built for method shared, ssid myssid and
psk mypsk carries the SSID as the byte values of the ASCII codes of
myssid, IPv4 method shared and a WPA-PSK security block whose psk is
mypsk; and for every ssid string the SSID field is the byte sequence of
that string's characters. -/
theorem wireless_descriptor_roundtrip :
    (∀ id, (NetworkManager.wirelessTemplate id "shared" "myssid" (some "mypsk")).ssid
        = [109, 121, 115, 115, 105, 100]
      ∧ (NetworkManager.wirelessTemplate id "shared" "myssid" (some "mypsk")).ipv4method
        = "shared"
      ∧ (NetworkManager.wirelessTemplate id "shared" "myssid" (some "mypsk")).security
        = some ⟨"wpa-psk", some "mypsk"⟩)
    ∧ ∀ id method ssid psk,
        (NetworkManager.wirelessTemplate id method ssid psk).ssid
          = ssid.data.map Char.toNat := by
  constructor
  · intro id
    refine ⟨?_, rfl, rfl⟩
    show NetworkManager.stringToArrayOfBytes "myssid" = _
    decide
  · intro id method ssid psk
    rfl

/-- C6 fails on the code: wirelessTemplate includes the
802-11-wireless-security section unconditionally (nm.ts lines 81-84), so
with psk omitted (undefined at runtime) the produced descriptor still
contains a security block; it is not absent. -/
theorem wireless_security_block_present_without_psk :
    (NetworkManager.wirelessTemplate "a" "shared" "myssid" none).security
      = some ⟨"wpa-psk", none⟩
    ∧ ¬ (NetworkManager.wirelessTemplate "a" "shared" "myssid" none).security = none := by
  exact ⟨rfl, by simp [NetworkManager.wirelessTemplate]⟩

/-- C6 amended: the wireless builder embeds the WPA-PSK security section
unconditionally: for every method, ssid and psk input the produced
descriptor contains the security block, holding whatever psk value was
passed. -/
theorem wireless_security_block_unconditional :
    ∀ id method ssid psk,
      (NetworkManager.wirelessTemplate id method ssid psk).security
        = some ⟨"wpa-psk", psk⟩ :=
  fun _ _ _ _ => rfl

/-- C10: every addWirelessConnection call with psk absent throws before
any bus method is invoked and before the wireless teardown action runs
(the manager state, bus trace included, is returned unchanged); moreover
every descriptor the wireless builder can produce carries a security
block, so an unsecured AP descriptor can never be created through the
public interface. -/
theorem wireless_psk_required :
    (∀ st ssid nat id, ∃ msg,
      NetworkManager.addWirelessConnection st ⟨ssid, none, nat⟩ id
        = (st, Except.error (Err.thrown msg)))
    ∧ ∀ id method ssid psk,
        (NetworkManager.wirelessTemplate id method ssid psk).security.isSome = true := by
  constructor
  · intro st ssid nat id
    cases hopt : st.options with
    | none =>
      exact ⟨"Wireless AP unconfigured",
        by simp [NetworkManager.addWirelessConnection, hopt]⟩
    | some o =>
      cases hw : o.wireless with
      | none =>
        exact ⟨"Wireless AP unconfigured",
          by simp [NetworkManager.addWirelessConnection, hopt, hw]⟩
      | some iface =>
        refine ⟨"Wireless configuration incomplete", ?_⟩
        cases ssid <;> cases nat <;>
          simp [NetworkManager.addWirelessConnection, hopt, hw]
  · intro _ _ _ _
    rfl

/-- C5: a call whose Mode lacks static configuration, or whose required
dynamic parameters are missing (nat for wired; ssid, psk or nat for
wireless), throws the corresponding configuration error with the manager
state returned unchanged: no bus method is invoked and the Mode's
teardown action is not run. -/
theorem configuration_validation_fail_fast :
    (∀ st o id,
      st.options = none ∨ (∃ oo, st.options = some oo ∧ oo.wired = none) →
      NetworkManager.addWiredConnection st o id
        = (st, Except.error (Err.thrown "Wired AP unconfigured")))
    ∧ (∀ st oo iface id, st.options = some oo → oo.wired = some iface →
      NetworkManager.addWiredConnection st ⟨none⟩ id
        = (st, Except.error (Err.thrown "Wired configuration incomplete")))
    ∧ (∀ st o id,
      st.options = none ∨ (∃ oo, st.options = some oo ∧ oo.wireless = none) →
      NetworkManager.addWirelessConnection st o id
        = (st, Except.error (Err.thrown "Wireless AP unconfigured")))
    ∧ ∀ st o oo iface id, st.options = some oo → oo.wireless = some iface →
        o.ssid = none ∨ o.psk = none ∨ o.nat = none →
      NetworkManager.addWirelessConnection st o id
        = (st, Except.error (Err.thrown "Wireless configuration incomplete")) := by
  refine ⟨?_, ?_, ?_, ?_⟩
  · intro st o id h
    rcases h with h | ⟨oo, h, hw⟩
    · simp [NetworkManager.addWiredConnection, h]
    · simp [NetworkManager.addWiredConnection, h, hw]
  · intro st oo iface id h hw
    simp [NetworkManager.addWiredConnection, h, hw]
  · intro st o id h
    rcases h with h | ⟨oo, h, hw⟩
    · simp [NetworkManager.addWirelessConnection, h]
    · simp [NetworkManager.addWirelessConnection, h, hw]
  · intro st o oo iface id h hw hmiss
    rcases o with ⟨s, p, n⟩
    cases s <;> cases p <;> cases n <;>
      simp_all [NetworkManager.addWirelessConnection]

/-- C5 witness: the four validation failures at concrete states. -/
theorem configuration_validation_fail_fast_witness :
    NetworkManager.addWiredConnection (NetworkManager.mkState none) ⟨some true⟩ "a"
      = (NetworkManager.mkState none, Except.error (Err.thrown "Wired AP unconfigured"))
    ∧ NetworkManager.addWiredConnection
        (NetworkManager.mkState (some ⟨some "eth0", none⟩)) ⟨none⟩ "a"
      = (NetworkManager.mkState (some ⟨some "eth0", none⟩),
          Except.error (Err.thrown "Wired configuration incomplete"))
    ∧ NetworkManager.addWirelessConnection (NetworkManager.mkState none)
        ⟨some "s", some "p", some true⟩ "a"
      = (NetworkManager.mkState none, Except.error (Err.thrown "Wireless AP unconfigured"))
    ∧ NetworkManager.addWirelessConnection
        (NetworkManager.mkState (some ⟨none, some "wlan0"⟩)) ⟨some "s", none, some true⟩ "a"
      = (NetworkManager.mkState (some ⟨none, some "wlan0"⟩),
          Except.error (Err.thrown "Wireless configuration incomplete")) :=
  ⟨configuration_validation_fail_fast.1 _ _ _ (Or.inl rfl),
    configuration_validation_fail_fast.2.1 _ ⟨some "eth0", none⟩ "eth0" _ rfl rfl,
    configuration_validation_fail_fast.2.2.1 _ _ _ (Or.inl rfl),
    configuration_validation_fail_fast.2.2.2 _ _ ⟨none, some "wlan0"⟩ "wlan0" _ rfl rfl
      (Or.inr (Or.inl rfl))⟩

/-- C7: removeConnection deletes the profile exactly when the reference
appears among the enumerated Settings nodes, and deactivateConnection
deactivates exactly when the reference appears among the active
connections; a stale reference leaves the service state unchanged, logs
no Delete or DeactivateConnection call, and throws nothing. -/
theorem remove_deactivate_iff_present (b : Bus) (ref : ObjPath) :
    (ref ∉ b.settingsNodes →
      NetworkManager.removeConnection b ref
        = ({ b with trace := b.trace ++ [BusCall.enumSettings] }, none))
    ∧ (ref ∈ b.settingsNodes → b.failDelete = false →
      NetworkManager.removeConnection b ref
        = ({ b with
              settingsNodes := b.settingsNodes.erase ref
              trace := b.trace ++ [BusCall.enumSettings, BusCall.delete ref] }, none))
    ∧ (ref ∉ b.activeNodes →
      NetworkManager.deactivateConnection b ref
        = ({ b with trace := b.trace ++ [BusCall.enumActive] }, none))
    ∧ (ref ∈ b.activeNodes → b.failDeactivate = false →
      NetworkManager.deactivateConnection b ref
        = ({ b with
              activeNodes := b.activeNodes.erase ref
              trace := b.trace ++ [BusCall.enumActive, BusCall.deactivate ref] }, none)) := by
  refine ⟨?_, ?_, ?_, ?_⟩
  · intro h
    unfold NetworkManager.removeConnection
    simp [Bus.log, List.elem_eq_mem, h]
  · intro h hf
    unfold NetworkManager.removeConnection
    simp [Bus.log, List.elem_eq_mem, h, hf]
  · intro h
    unfold NetworkManager.deactivateConnection
    simp [Bus.log, List.elem_eq_mem, h]
  · intro h hf
    unfold NetworkManager.deactivateConnection
    simp [Bus.log, List.elem_eq_mem, h, hf]

/-- C7 witness: both operations at a two-profile bus, with one present
and one stale reference each. -/
theorem remove_deactivate_iff_present_witness :
    NetworkManager.removeConnection
        { Bus.init with settingsNodes := [ObjPath.settingsConn 0] } (ObjPath.settingsConn 5)
      = ({ Bus.init with
            settingsNodes := [ObjPath.settingsConn 0]
            trace := [BusCall.enumSettings] }, none)
    ∧ NetworkManager.removeConnection
        { Bus.init with settingsNodes := [ObjPath.settingsConn 0] } (ObjPath.settingsConn 0)
      = ({ Bus.init with
            trace := [BusCall.enumSettings, BusCall.delete (ObjPath.settingsConn 0)] }, none)
    ∧ NetworkManager.deactivateConnection
        { Bus.init with activeNodes := [ObjPath.activeConn 1] } (ObjPath.activeConn 5)
      = ({ Bus.init with
            activeNodes := [ObjPath.activeConn 1]
            trace := [BusCall.enumActive] }, none)
    ∧ NetworkManager.deactivateConnection
        { Bus.init with activeNodes := [ObjPath.activeConn 1] } (ObjPath.activeConn 1)
      = ({ Bus.init with
            trace := [BusCall.enumActive, BusCall.deactivate (ObjPath.activeConn 1)] }, none) :=
  ⟨(remove_deactivate_iff_present _ _).1 (by decide),
    (remove_deactivate_iff_present _ _).2.1 (by decide) rfl,
    (remove_deactivate_iff_present _ _).2.2.1 (by decide),
    (remove_deactivate_iff_present _ _).2.2.2 (by decide) rfl⟩

/-- A teardown action that records its invocation by incrementing the
state and then throws. -/
def countingThrow : Teardown Nat Unit := ⟨fun n => (n + 1, some ())⟩

/-- C2 fails on the code: run() executes the reset of the held action
only after the awaited action returns, so when the action throws the
held action is not reset to the no-op, and a second run() performs the
reversal call again (the invocation counter advances a second time). -/
theorem run_does_not_reset_after_throw :
    ¬ (countingThrow.run 0).1 = Teardown.noop
    ∧ ((countingThrow.run 0).1.run 1).2 = (2, some ()) := by
  constructor
  · intro h
    have h0 := congrArg (fun t => (Teardown.fn t 1).2) h
    simp [countingThrow, Teardown.run, Teardown.noop] at h0
  · rfl

/-- C2 amended: run() resets the held action to the no-op exactly when
the action completes without throwing; when the action throws, the error
propagates and the held action is left unchanged, so a second run()
repeats the reversal. -/
theorem run_resets_iff_action_succeeds {σ ε : Type} (t : Teardown σ ε) (s : σ) :
    (∀ s1, t.fn s = (s1, none) → t.run s = (Teardown.noop, s1, none))
    ∧ ∀ s1 e, t.fn s = (s1, some e) → t.run s = (t, s1, some e) := by
  constructor
  · intro s1 h
    simp [Teardown.run, h]
  · intro s1 e h
    simp [Teardown.run, h]

/-- C2 amended witness: the throwing action is kept, the error
propagates. -/
theorem run_resets_iff_action_succeeds_witness :
    countingThrow.run 0 = (countingThrow, 1, some ()) :=
  (run_resets_iff_action_succeeds countingThrow 0).2 1 () rfl

/-- A bus holding one wired and one wireless connection whose service
rejects DeactivateConnection, so both registered reversal actions
throw. -/
def failingBus : Bus :=
  { Bus.init with
      settingsNodes := [ObjPath.settingsConn 0, ObjPath.settingsConn 1]
      activeNodes := [ObjPath.activeConn 2, ObjPath.activeConn 3]
      fresh := 4
      failDeactivate := true }

/-- A manager in the Active state for both Modes over failingBus, with
the reversal closures the manager itself registers. -/
def failingState : NMState :=
  { options := some ⟨some "eth0", some "wlan0"⟩
    bus := failingBus
    teardowns :=
      ⟨⟨NetworkManager.reversal (ObjPath.activeConn 2) (ObjPath.settingsConn 0)⟩,
        ⟨NetworkManager.reversal (ObjPath.activeConn 3) (ObjPath.settingsConn 1)⟩⟩
    sigint := true
    sigterm := true }

/-- The bus reached when failingState's wired reversal throws: the
enumeration and the rejected DeactivateConnection are logged, nothing
else changed. -/
def failedWiredBus : Bus :=
  { failingBus with
      trace := [BusCall.enumActive, BusCall.deactivate (ObjPath.activeConn 2)] }

/-- C1 fails on the code: teardown() has no try/catch, so a throwing
wired reversal propagates out of teardown and shutdown does not
complete: the wireless reversal is never attempted and the bus is not
disconnected. -/
theorem teardown_raises_on_reversal_failure :
    (NetworkManager.teardown failingState none).2.1
      = some (Err.remote (BusCall.deactivate (ObjPath.activeConn 2)))
    ∧ (NetworkManager.teardown failingState none).1.bus.connected = true
    ∧ BusCall.deactivate (ObjPath.activeConn 3)
        ∉ (NetworkManager.teardown failingState none).1.bus.trace
    ∧ BusCall.disconnect ∉ (NetworkManager.teardown failingState none).1.bus.trace := by
  decide

/-- C1 amended: teardown deregisters both signal listeners and then runs
the wired reversal, the wireless reversal and the bus disconnect in
order, but it does not suppress reversal failures: the first throwing
reversal propagates to the caller and aborts the remaining shutdown
steps; only when both reversals complete without error does the full
shutdown complete. -/
theorem teardown_propagates_reversal_errors (st : NMState) :
    (∀ b1 e, st.teardowns.wired.fn st.bus = (b1, some e) →
      NetworkManager.teardown st none
        = ({ st with sigint := false, sigterm := false, bus := b1 }, some e, none))
    ∧ (∀ b1 b2 e, st.teardowns.wired.fn st.bus = (b1, none) →
        st.teardowns.wireless.fn b1 = (b2, some e) →
      NetworkManager.teardown st none
        = ({ st with
              sigint := false
              sigterm := false
              teardowns := ⟨Teardown.noop, st.teardowns.wireless⟩
              bus := b2 }, some e, none))
    ∧ ∀ b1 b2, st.teardowns.wired.fn st.bus = (b1, none) →
        st.teardowns.wireless.fn b1 = (b2, none) →
      NetworkManager.teardown st none
        = ({ st with
              sigint := false
              sigterm := false
              teardowns := ⟨Teardown.noop, Teardown.noop⟩
              bus := Bus.disconnect b2 }, none, none) := by
  refine ⟨?_, ?_, ?_⟩
  · intro b1 e h
    simp [NetworkManager.teardown, Teardown.run, h]
  · intro b1 b2 e h h2
    simp [NetworkManager.teardown, Teardown.run, h, h2]
  · intro b1 b2 h h2
    simp [NetworkManager.teardown, Teardown.run, h, h2]

/-- C1 amended witness: the throwing wired reversal of failingState
propagates and shuts down nothing further. -/
theorem teardown_propagates_reversal_errors_witness :
    NetworkManager.teardown failingState none
      = ({ failingState with sigint := false, sigterm := false, bus := failedWiredBus },
          some (Err.remote (BusCall.deactivate (ObjPath.activeConn 2))), none) :=
  (teardown_propagates_reversal_errors failingState).1 failedWiredBus
    (Err.remote (BusCall.deactivate (ObjPath.activeConn 2))) (by decide)

/-- A manager with a live wired connection (reversal registered, one
profile and one active connection on the service, trace cleared), as a
successful wired call leaves it. -/
def sigDemoState : NMState :=
  { options := some ⟨some "eth0", some "wlan0"⟩
    bus := { Bus.init with
        settingsNodes := [ObjPath.settingsConn 0]
        activeNodes := [ObjPath.activeConn 1]
        fresh := 2 }
    teardowns :=
      ⟨⟨NetworkManager.reversal (ObjPath.activeConn 1) (ObjPath.settingsConn 0)⟩,
        Teardown.noop⟩
    sigint := true
    sigterm := true }

/-- C3 describes the intended behavior, but the code's signal path is
broken: the listeners stay installed (no deregistration happened), no
bus call runs (neither Teardown Action is invoked, the active connection
and profile survive, the bus stays connected), no exit code 130 or 143
is produced, and the TypeError from removeListener surfaces instead —
for either handled signal. -/
theorem signal_delivery_crashes_before_teardown :
    NetworkManager.deliverSignal sigDemoState NetworkManager.Signal.SIGINT
      = (sigDemoState, some (Err.typeError "ERR_INVALID_ARG_TYPE"), none)
    ∧ (NetworkManager.deliverSignal sigDemoState NetworkManager.Signal.SIGINT).1.sigint = true
    ∧ (NetworkManager.deliverSignal sigDemoState NetworkManager.Signal.SIGINT).1.sigterm = true
    ∧ (NetworkManager.deliverSignal sigDemoState NetworkManager.Signal.SIGINT).1.bus.trace = []
    ∧ (NetworkManager.deliverSignal sigDemoState NetworkManager.Signal.SIGINT).1.bus.activeNodes
        = [ObjPath.activeConn 1]
    ∧ (NetworkManager.deliverSignal sigDemoState NetworkManager.Signal.SIGINT).1.bus.connected
        = true
    ∧ (NetworkManager.deliverSignal sigDemoState NetworkManager.Signal.SIGTERM).2.2 = none :=
  ⟨rfl, rfl, rfl, rfl, rfl, rfl, rfl⟩

/-- A fresh bus whose service rejects ActivateConnection. -/
def activationFailBus : Bus :=
  { Bus.init with failActivate := true }

/-- A configured manager over activationFailBus. -/
def activationFailState : NMState :=
  { NetworkManager.mkState (some ⟨some "eth0", some "wlan0"⟩) with bus := activationFailBus }

/-- C4 fails on the code: when activation fails, addWiredConnection
propagates the error while the just-registered profile is still present
among the Settings nodes and no cleanup call (neither an enumeration nor
a Delete) appears in the trace: best-effort cleanup of the registered
profile is not attempted and the profile leaks. -/
theorem add_wired_no_cleanup_on_activation_failure :
    (NetworkManager.addWiredConnection activationFailState ⟨some true⟩ "w1").2
      = Except.error (Err.remote
          (BusCall.activate (ObjPath.settingsConn 0) (ObjPath.device "eth0")))
    ∧ ObjPath.settingsConn 0
        ∈ (NetworkManager.addWiredConnection activationFailState ⟨some true⟩ "w1").1.bus.settingsNodes
    ∧ BusCall.delete (ObjPath.settingsConn 0)
        ∉ (NetworkManager.addWiredConnection activationFailState ⟨some true⟩ "w1").1.bus.trace
    ∧ BusCall.enumSettings
        ∉ (NetworkManager.addWiredConnection activationFailState ⟨some true⟩ "w1").1.bus.trace :=
  ⟨rfl, by decide, by decide, by decide⟩

/-- A fresh bus whose service rejects AddConnectionUnsaved. -/
def addFailBus : Bus :=
  { Bus.init with failAdd := true }

/-- A configured manager over addFailBus. -/
def addFailState : NMState :=
  { NetworkManager.mkState (some ⟨some "eth0", some "wlan0"⟩) with bus := addFailBus }

/-- A fresh bus whose service rejects GetDeviceByIpIface. -/
def getDeviceFailBus : Bus :=
  { Bus.init with failGetDevice := true }

/-- A configured manager over getDeviceFailBus. -/
def getDeviceFailState : NMState :=
  { NetworkManager.mkState (some ⟨some "eth0", some "wlan0"⟩) with bus := getDeviceFailBus }

/-- A manager with a live wired connection whose service accepts the
reversal calls but rejects ActivateConnection: the next wired call's
initial teardown succeeds and its activation step fails. -/
def activeActivationFailState : NMState :=
  { options := some ⟨some "eth0", some "wlan0"⟩
    bus := { Bus.init with
        settingsNodes := [ObjPath.settingsConn 0]
        activeNodes := [ObjPath.activeConn 1]
        fresh := 2
        failActivate := true }
    teardowns :=
      ⟨⟨NetworkManager.reversal (ObjPath.activeConn 1) (ObjPath.settingsConn 0)⟩,
        Teardown.noop⟩
    sigint := true
    sigterm := true }

/-- The bus after activeActivationFailState's wired reversal has run:
both nodes gone, the four reversal calls logged. -/
def activeActivationFailBus1 : Bus :=
  { Bus.init with
      fresh := 2
      failActivate := true
      trace := [BusCall.enumActive, BusCall.deactivate (ObjPath.activeConn 1),
        BusCall.enumSettings, BusCall.delete (ObjPath.settingsConn 0)] }

/-- C4 amended: whenever the Mode's initial teardown completes (from
Idle or from a prior Active state) and any later step fails — profile
registration, device resolution, or activation — the Mode remains
logically Idle (the registry holds the no-op, nothing new registered)
and the error propagates to the caller, but no cleanup of a profile
registered before the failing step is attempted: the trace gains exactly
the calls up to the failing one, never a Delete, and in the
device-resolution and activation cases the registered profile stays
among the Settings nodes (it leaks). -/
theorem add_connection_partial_failure_leaks (st : NMState) (oo : NetOptions)
    (iface id ssid psk : String) (nat : Bool) (b1 : Bus) :
    (st.options = some oo → oo.wired = some iface →
      st.teardowns.wired.fn st.bus = (b1, none) →
      ((b1.failAdd = true →
        (NetworkManager.addWiredConnection st ⟨some nat⟩ id).2
            = Except.error (Err.remote (BusCall.addConnectionUnsaved (Descriptor.wired
                (NetworkManager.wiredTemplate id (if nat then "shared" else "link-local")))))
          ∧ (NetworkManager.addWiredConnection st ⟨some nat⟩ id).1.teardowns.wired
            = Teardown.noop
          ∧ (NetworkManager.addWiredConnection st ⟨some nat⟩ id).1.bus.trace
            = b1.trace ++ [BusCall.addConnectionUnsaved (Descriptor.wired
                (NetworkManager.wiredTemplate id (if nat then "shared" else "link-local")))])
      ∧ (b1.failAdd = false → b1.failGetDevice = true →
        (NetworkManager.addWiredConnection st ⟨some nat⟩ id).2
            = Except.error (Err.remote (BusCall.getDeviceByIpIface iface))
          ∧ (NetworkManager.addWiredConnection st ⟨some nat⟩ id).1.teardowns.wired
            = Teardown.noop
          ∧ ObjPath.settingsConn b1.fresh
              ∈ (NetworkManager.addWiredConnection st ⟨some nat⟩ id).1.bus.settingsNodes
          ∧ (NetworkManager.addWiredConnection st ⟨some nat⟩ id).1.bus.trace
            = b1.trace ++
              [BusCall.addConnectionUnsaved (Descriptor.wired
                  (NetworkManager.wiredTemplate id (if nat then "shared" else "link-local"))),
                BusCall.getDeviceByIpIface iface])
      ∧ (b1.failAdd = false → b1.failGetDevice = false → b1.failActivate = true →
        (NetworkManager.addWiredConnection st ⟨some nat⟩ id).2
            = Except.error (Err.remote (BusCall.activate
                (ObjPath.settingsConn b1.fresh) (ObjPath.device iface)))
          ∧ (NetworkManager.addWiredConnection st ⟨some nat⟩ id).1.teardowns.wired
            = Teardown.noop
          ∧ ObjPath.settingsConn b1.fresh
              ∈ (NetworkManager.addWiredConnection st ⟨some nat⟩ id).1.bus.settingsNodes
          ∧ (NetworkManager.addWiredConnection st ⟨some nat⟩ id).1.bus.trace
            = b1.trace ++
              [BusCall.addConnectionUnsaved (Descriptor.wired
                  (NetworkManager.wiredTemplate id (if nat then "shared" else "link-local"))),
                BusCall.getDeviceByIpIface iface,
                BusCall.activate (ObjPath.settingsConn b1.fresh) (ObjPath.device iface)])))
    ∧ (st.options = some oo → oo.wireless = some iface →
      st.teardowns.wireless.fn st.bus = (b1, none) →
      ((b1.failAdd = true →
        (NetworkManager.addWirelessConnection st ⟨some ssid, some psk, some nat⟩ id).2
            = Except.error (Err.remote (BusCall.addConnectionUnsaved (Descriptor.wireless
                (NetworkManager.wirelessTemplate id (if nat then "shared" else "link-local")
                  ssid (some psk)))))
          ∧ (NetworkManager.addWirelessConnection st
              ⟨some ssid, some psk, some nat⟩ id).1.teardowns.wireless = Teardown.noop
          ∧ (NetworkManager.addWirelessConnection st
              ⟨some ssid, some psk, some nat⟩ id).1.bus.trace
            = b1.trace ++ [BusCall.addConnectionUnsaved (Descriptor.wireless
                (NetworkManager.wirelessTemplate id (if nat then "shared" else "link-local")
                  ssid (some psk)))])
      ∧ (b1.failAdd = false → b1.failGetDevice = true →
        (NetworkManager.addWirelessConnection st ⟨some ssid, some psk, some nat⟩ id).2
            = Except.error (Err.remote (BusCall.getDeviceByIpIface iface))
          ∧ (NetworkManager.addWirelessConnection st
              ⟨some ssid, some psk, some nat⟩ id).1.teardowns.wireless = Teardown.noop
          ∧ ObjPath.settingsConn b1.fresh
              ∈ (NetworkManager.addWirelessConnection st
                  ⟨some ssid, some psk, some nat⟩ id).1.bus.settingsNodes
          ∧ (NetworkManager.addWirelessConnection st
              ⟨some ssid, some psk, some nat⟩ id).1.bus.trace
            = b1.trace ++
              [BusCall.addConnectionUnsaved (Descriptor.wireless
                  (NetworkManager.wirelessTemplate id (if nat then "shared" else "link-local")
                    ssid (some psk))),
                BusCall.getDeviceByIpIface iface])
      ∧ (b1.failAdd = false → b1.failGetDevice = false → b1.failActivate = true →
        (NetworkManager.addWirelessConnection st ⟨some ssid, some psk, some nat⟩ id).2
            = Except.error (Err.remote (BusCall.activate
                (ObjPath.settingsConn b1.fresh) (ObjPath.device iface)))
          ∧ (NetworkManager.addWirelessConnection st
              ⟨some ssid, some psk, some nat⟩ id).1.teardowns.wireless = Teardown.noop
          ∧ ObjPath.settingsConn b1.fresh
              ∈ (NetworkManager.addWirelessConnection st
                  ⟨some ssid, some psk, some nat⟩ id).1.bus.settingsNodes
          ∧ (NetworkManager.addWirelessConnection st
              ⟨some ssid, some psk, some nat⟩ id).1.bus.trace
            = b1.trace ++
              [BusCall.addConnectionUnsaved (Descriptor.wireless
                  (NetworkManager.wirelessTemplate id (if nat then "shared" else "link-local")
                    ssid (some psk))),
                BusCall.getDeviceByIpIface iface,
                BusCall.activate (ObjPath.settingsConn b1.fresh) (ObjPath.device iface)]))) := by
  constructor
  · intro h hw hrun
    have hrun' : st.teardowns.wired.run st.bus = (Teardown.noop, b1, none) := by
      simp [Teardown.run, hrun]
    refine ⟨?_, ?_, ?_⟩
    · intro hfa
      simp [NetworkManager.addWiredConnection, h, hw, hrun',
        NetworkManager.addConnection, Bus.log, hfa]
    · intro hfa hfg
      simp [NetworkManager.addWiredConnection, h, hw, hrun',
        NetworkManager.addConnection, NetworkManager.getDevice, Bus.log, hfa, hfg]
    · intro hfa hfg hfc
      simp [NetworkManager.addWiredConnection, h, hw, hrun',
        NetworkManager.addConnection, NetworkManager.getDevice,
        NetworkManager.activateConnection, Bus.log, hfa, hfg, hfc]
  · intro h hw hrun
    have hrun' : st.teardowns.wireless.run st.bus = (Teardown.noop, b1, none) := by
      simp [Teardown.run, hrun]
    refine ⟨?_, ?_, ?_⟩
    · intro hfa
      simp [NetworkManager.addWirelessConnection, h, hw, hrun',
        NetworkManager.addConnection, Bus.log, hfa]
    · intro hfa hfg
      simp [NetworkManager.addWirelessConnection, h, hw, hrun',
        NetworkManager.addConnection, NetworkManager.getDevice, Bus.log, hfa, hfg]
    · intro hfa hfg hfc
      simp [NetworkManager.addWirelessConnection, h, hw, hrun',
        NetworkManager.addConnection, NetworkManager.getDevice,
        NetworkManager.activateConnection, Bus.log, hfa, hfg, hfc]

/-- C4 amended witness: all three failing steps at concrete managers —
a rejected registration, a rejected device resolution (profile leaked),
and a rejected activation starting from an Active wired state (initial
reversal succeeded, new profile leaked); plus a rejected wireless
activation. -/
theorem add_connection_partial_failure_leaks_witness :
    ((NetworkManager.addWiredConnection addFailState ⟨some true⟩ "w1").2
        = Except.error (Err.remote (BusCall.addConnectionUnsaved (Descriptor.wired
            (NetworkManager.wiredTemplate "w1" "shared"))))
      ∧ (NetworkManager.addWiredConnection addFailState ⟨some true⟩ "w1").1.teardowns.wired
        = Teardown.noop)
    ∧ ObjPath.settingsConn 0
        ∈ (NetworkManager.addWiredConnection getDeviceFailState ⟨some true⟩ "w1").1.bus.settingsNodes
    ∧ ((NetworkManager.addWiredConnection activeActivationFailState ⟨some false⟩ "w3").1.teardowns.wired
        = Teardown.noop
      ∧ ObjPath.settingsConn 2
          ∈ (NetworkManager.addWiredConnection activeActivationFailState
              ⟨some false⟩ "w3").1.bus.settingsNodes)
    ∧ ((NetworkManager.addWirelessConnection activationFailState
          ⟨some "net", some "secret", some true⟩ "w2").1.teardowns.wireless
        = Teardown.noop
      ∧ ObjPath.settingsConn 0
          ∈ (NetworkManager.addWirelessConnection activationFailState
              ⟨some "net", some "secret", some true⟩ "w2").1.bus.settingsNodes) :=
  ⟨⟨(((add_connection_partial_failure_leaks addFailState ⟨some "eth0", some "wlan0"⟩
        "eth0" "w1" "net" "secret" true addFailBus).1 rfl rfl rfl).1 rfl).1,
      (((add_connection_partial_failure_leaks addFailState ⟨some "eth0", some "wlan0"⟩
        "eth0" "w1" "net" "secret" true addFailBus).1 rfl rfl rfl).1 rfl).2.1⟩,
    (((add_connection_partial_failure_leaks getDeviceFailState ⟨some "eth0", some "wlan0"⟩
        "eth0" "w1" "net" "secret" true getDeviceFailBus).1 rfl rfl rfl).2.1 rfl rfl).2.2.1,
    ⟨(((add_connection_partial_failure_leaks activeActivationFailState
          ⟨some "eth0", some "wlan0"⟩ "eth0" "w3" "net" "secret" false
          activeActivationFailBus1).1 rfl rfl (by decide)).2.2 rfl rfl rfl).2.1,
      (((add_connection_partial_failure_leaks activeActivationFailState
          ⟨some "eth0", some "wlan0"⟩ "eth0" "w3" "net" "secret" false
          activeActivationFailBus1).1 rfl rfl (by decide)).2.2 rfl rfl rfl).2.2.1⟩,
    ⟨(((add_connection_partial_failure_leaks activationFailState
          ⟨some "eth0", some "wlan0"⟩ "wlan0" "w2" "net" "secret" true
          activationFailBus).2 rfl rfl rfl).2.2 rfl rfl rfl).2.1,
      (((add_connection_partial_failure_leaks activationFailState
          ⟨some "eth0", some "wlan0"⟩ "wlan0" "w2" "net" "secret" true
          activationFailBus).2 rfl rfl rfl).2.2 rfl rfl rfl).2.2.1⟩⟩

/-- The wired Mode is Idle: the registry holds the no-op and the bus
carries no wired profile or active connection. -/
def WiredIdle (st : NMState) : Prop :=
  st.teardowns.wired = Teardown.noop
  ∧ st.bus.activeNodes = [] ∧ st.bus.settingsNodes = []

/-- The wired Mode is Active at profile m and active connection n: the
registry holds the reversal closure for exactly those references, they
are the only nodes of their kind, and both were minted earlier than the
service's next fresh path. -/
def WiredActive (st : NMState) (n m : Nat) : Prop :=
  st.teardowns.wired
      = ⟨NetworkManager.reversal (ObjPath.activeConn n) (ObjPath.settingsConn m)⟩
  ∧ st.bus.activeNodes = [ObjPath.activeConn n]
  ∧ st.bus.settingsNodes = [ObjPath.settingsConn m]
  ∧ n < st.bus.fresh ∧ m < st.bus.fresh

/-- State invariant of a manager driven only by wired calls. -/
def WiredInv (st : NMState) : Prop :=
  WiredIdle st ∨ ∃ n m, WiredActive st n m

/-- C8: a fresh manager satisfies the wired invariant, and every
successful addWiredConnection call preserves it with exactly one active
connection afterwards; when the call starts from an Active state, the
previous active connection and profile are gone from the service and the
trace shows the deactivation and deletion happening before the calls
that create the new connection. -/
theorem addWiredConnection_single_active :
    (∀ o, WiredInv (NetworkManager.mkState o))
    ∧ ∀ st o id r, WiredInv st →
        (NetworkManager.addWiredConnection st o id).2 = Except.ok r →
        WiredInv (NetworkManager.addWiredConnection st o id).1
        ∧ (NetworkManager.addWiredConnection st o id).1.bus.activeNodes.length = 1
        ∧ ∀ n' m', WiredActive st n' m' →
            ObjPath.activeConn n' ∉ (NetworkManager.addWiredConnection st o id).1.bus.activeNodes
            ∧ ObjPath.settingsConn m' ∉ (NetworkManager.addWiredConnection st o id).1.bus.settingsNodes
            ∧ ∃ d ifc, (NetworkManager.addWiredConnection st o id).1.bus.trace
                = st.bus.trace ++
                  [BusCall.enumActive, BusCall.deactivate (ObjPath.activeConn n'),
                    BusCall.enumSettings, BusCall.delete (ObjPath.settingsConn m'),
                    BusCall.addConnectionUnsaved d, BusCall.getDeviceByIpIface ifc,
                    BusCall.activate (ObjPath.settingsConn st.bus.fresh) (ObjPath.device ifc)] := by
  constructor
  · intro o
    exact Or.inl ⟨rfl, rfl, rfl⟩
  intro st o id r hInv hOk
  rcases hopt : st.options with _ | oo
  · simp [NetworkManager.addWiredConnection, hopt] at hOk
  rcases hw : oo.wired with _ | iface
  · simp [NetworkManager.addWiredConnection, hopt, hw] at hOk
  rcases hnat : o.nat with _ | nat
  · simp [NetworkManager.addWiredConnection, hopt, hw, hnat] at hOk
  rcases hInv with ⟨htd, hact, hset⟩ | ⟨n, m, htd, hact, hset, hn, hm⟩
  · by_cases hfa : st.bus.failAdd
    · simp [NetworkManager.addWiredConnection, hopt, hw, hnat, htd, Teardown.run,
        Teardown.noop, NetworkManager.addConnection, Bus.log, hfa] at hOk
    by_cases hfg : st.bus.failGetDevice
    · simp [NetworkManager.addWiredConnection, hopt, hw, hnat, htd, Teardown.run,
        Teardown.noop, NetworkManager.addConnection, NetworkManager.getDevice,
        Bus.log, hfa, hfg] at hOk
    by_cases hfc : st.bus.failActivate
    · simp [NetworkManager.addWiredConnection, hopt, hw, hnat, htd, Teardown.run,
        Teardown.noop, NetworkManager.addConnection, NetworkManager.getDevice,
        NetworkManager.activateConnection, Bus.log, hfa, hfg, hfc] at hOk
    refine ⟨Or.inr ⟨st.bus.fresh + 1, st.bus.fresh, ?_⟩, ?_, ?_⟩
    · unfold WiredActive
      simp [NetworkManager.addWiredConnection, hopt, hw, hnat, htd, Teardown.run,
        Teardown.noop, Teardown.register, NetworkManager.addConnection,
        NetworkManager.getDevice, NetworkManager.activateConnection, Bus.log,
        hfa, hfg, hfc, hact, hset]
      omega
    · simp [NetworkManager.addWiredConnection, hopt, hw, hnat, htd, Teardown.run,
        Teardown.noop, NetworkManager.addConnection, NetworkManager.getDevice,
        NetworkManager.activateConnection, Bus.log, hfa, hfg, hfc, hact, hset]
    · intro n' m' hA
      rw [WiredActive, hact] at hA
      simp at hA
  · by_cases hfd : st.bus.failDeactivate
    · simp [NetworkManager.addWiredConnection, hopt, hw, hnat, htd, Teardown.run,
        NetworkManager.reversal, NetworkManager.deactivateConnection, Bus.log,
        hact, hfd] at hOk
    by_cases hfe : st.bus.failDelete
    · simp [NetworkManager.addWiredConnection, hopt, hw, hnat, htd, Teardown.run,
        NetworkManager.reversal, NetworkManager.deactivateConnection,
        NetworkManager.removeConnection, Bus.log, hact, hset, hfd, hfe] at hOk
    by_cases hfa : st.bus.failAdd
    · simp [NetworkManager.addWiredConnection, hopt, hw, hnat, htd, Teardown.run,
        NetworkManager.reversal, NetworkManager.deactivateConnection,
        NetworkManager.removeConnection, NetworkManager.addConnection,
        Bus.log, hact, hset, hfd, hfe, hfa] at hOk
    by_cases hfg : st.bus.failGetDevice
    · simp [NetworkManager.addWiredConnection, hopt, hw, hnat, htd, Teardown.run,
        NetworkManager.reversal, NetworkManager.deactivateConnection,
        NetworkManager.removeConnection, NetworkManager.addConnection,
        NetworkManager.getDevice, Bus.log, hact, hset, hfd, hfe, hfa, hfg] at hOk
    by_cases hfc : st.bus.failActivate
    · simp [NetworkManager.addWiredConnection, hopt, hw, hnat, htd, Teardown.run,
        NetworkManager.reversal, NetworkManager.deactivateConnection,
        NetworkManager.removeConnection, NetworkManager.addConnection,
        NetworkManager.getDevice, NetworkManager.activateConnection,
        Bus.log, hact, hset, hfd, hfe, hfa, hfg, hfc] at hOk
    refine ⟨Or.inr ⟨st.bus.fresh + 1, st.bus.fresh, ?_⟩, ?_, ?_⟩
    · unfold WiredActive
      simp [NetworkManager.addWiredConnection, hopt, hw, hnat, htd, Teardown.run,
        Teardown.register, NetworkManager.reversal, NetworkManager.deactivateConnection,
        NetworkManager.removeConnection, NetworkManager.addConnection,
        NetworkManager.getDevice, NetworkManager.activateConnection,
        Bus.log, hact, hset, hfd, hfe, hfa, hfg, hfc]
      omega
    · simp [NetworkManager.addWiredConnection, hopt, hw, hnat, htd, Teardown.run,
        NetworkManager.reversal, NetworkManager.deactivateConnection,
        NetworkManager.removeConnection, NetworkManager.addConnection,
        NetworkManager.getDevice, NetworkManager.activateConnection,
        Bus.log, hact, hset, hfd, hfe, hfa, hfg, hfc]
    · intro n' m' hA
      rw [WiredActive, hact, hset] at hA
      obtain ⟨-, hact', hset', -, -⟩ := hA
      simp only [List.cons.injEq, ObjPath.activeConn.injEq, ObjPath.settingsConn.injEq,
        and_true] at hact' hset'
      subst hact' hset'
      refine ⟨?_, ?_, Descriptor.wired
          (NetworkManager.wiredTemplate id (if nat then "shared" else "link-local")),
        iface, ?_⟩
      · simp [NetworkManager.addWiredConnection, hopt, hw, hnat, htd, Teardown.run,
          NetworkManager.reversal, NetworkManager.deactivateConnection,
          NetworkManager.removeConnection, NetworkManager.addConnection,
          NetworkManager.getDevice, NetworkManager.activateConnection,
          Bus.log, hact, hset, hfd, hfe, hfa, hfg, hfc]
        omega
      · simp [NetworkManager.addWiredConnection, hopt, hw, hnat, htd, Teardown.run,
          NetworkManager.reversal, NetworkManager.deactivateConnection,
          NetworkManager.removeConnection, NetworkManager.addConnection,
          NetworkManager.getDevice, NetworkManager.activateConnection,
          Bus.log, hact, hset, hfd, hfe, hfa, hfg, hfc]
        omega
      · simp [NetworkManager.addWiredConnection, hopt, hw, hnat, htd, Teardown.run,
          NetworkManager.reversal, NetworkManager.deactivateConnection,
          NetworkManager.removeConnection, NetworkManager.addConnection,
          NetworkManager.getDevice, NetworkManager.activateConnection,
          Bus.log, hact, hset, hfd, hfe, hfa, hfg, hfc]

/-- A freshly constructed manager configured for both interfaces. -/
def wiredDemoState : NMState :=
  NetworkManager.mkState (some ⟨some "eth0", some "wlan0"⟩)

/-- The manager after one successful wired call. -/
def wiredDemoState1 : NMState :=
  (NetworkManager.addWiredConnection wiredDemoState ⟨some true⟩ "a").1

/-- C8 witness: two successive successful wired calls from a fresh
manager, the second one starting from the Active state reached by the
first; after the second call the first call's connection and profile are
gone. -/
theorem addWiredConnection_single_active_witness :
    (WiredInv (NetworkManager.addWiredConnection wiredDemoState ⟨some true⟩ "a").1
      ∧ (NetworkManager.addWiredConnection wiredDemoState
          ⟨some true⟩ "a").1.bus.activeNodes.length = 1)
    ∧ (WiredInv (NetworkManager.addWiredConnection wiredDemoState1 ⟨some false⟩ "b").1
      ∧ ObjPath.activeConn 1
          ∉ (NetworkManager.addWiredConnection wiredDemoState1
              ⟨some false⟩ "b").1.bus.activeNodes) :=
  ⟨⟨(addWiredConnection_single_active.2 wiredDemoState ⟨some true⟩ "a" "eth0"
        (Or.inl ⟨rfl, rfl, rfl⟩) rfl).1,
      (addWiredConnection_single_active.2 wiredDemoState ⟨some true⟩ "a" "eth0"
        (Or.inl ⟨rfl, rfl, rfl⟩) rfl).2.1⟩,
    ⟨(addWiredConnection_single_active.2 wiredDemoState1 ⟨some false⟩ "b" "eth0"
        (Or.inr ⟨1, 0, rfl, rfl, rfl, by decide, by decide⟩) rfl).1,
      ((addWiredConnection_single_active.2 wiredDemoState1 ⟨some false⟩ "b" "eth0"
        (Or.inr ⟨1, 0, rfl, rfl, rfl, by decide, by decide⟩) rfl).2.2 1 0
        ⟨rfl, rfl, rfl, by decide, by decide⟩).1⟩⟩

end Leviathan
